import Mathlib

/-!
# KubeCube: cluster API handlers and the user controller's namespace mapper

A shallow embedding of

* `pkg/warden/localmgr/controllers/user/ns_handler.go`
  (`namespacePredicateFn`, `namespaceHandleFunc`, `toFindRelatedUsers`,
  `extraTenantAndProject`, `allowedPaas`),
* `pkg/apiserver/cubeapi/cluster/handler.go`
  (`getClusterResource`, `getSubNamespaces`, `addCluster`, `registerCluster`), and
* `pkg/authentication/identityprovider/ldap/ldap.go`
  (the search filter of `ldapProvider.Authenticate`).

Calls that leave the process (the object store, the per-cluster caches, the
template engine) appear as explicit arguments holding the outcome of the call.
-/

set_option autoImplicit false

namespace KubeCube

/-! ## Go built-ins -/

/-- Go `len(s)` on a string: the number of bytes. -/
def len (s : String) : Nat := s.utf8ByteSize

/-- A Go `map[string]string`; `none` is the nil map. Keys are looked up from the
front, so a key has one value. -/
abbrev Labels := Option (List (String × String))

/-- Go `v, ok := m[k]` as an option: `none` when `ok` is false. -/
def Labels.get? (ls : Labels) (k : String) : Option String :=
  match ls with
  | none => none
  | some kvs => kvs.lookup k

/-- Go `m[k]`: the zero value `""` when the key is absent (also on a nil map). -/
def Labels.index (ls : Labels) (k : String) : String :=
  (ls.get? k).getD ""

/-! ## `ns_handler.go` -/

/-- The two label keys of `pkg/utils/constants` read by `ns_handler.go`. -/
structure HncConstants where
  HncTenantLabel : String
  HncProjectLabel : String

/-- The field of `userv1.ProjectInfo` read by the mapper. -/
structure ProjectInfo where
  Project : String
  deriving DecidableEq, Repr

/-- The fields of `userv1.UserStatus` read by the mapper. -/
structure UserStatus where
  BelongTenants : List String
  BelongProjectInfos : List ProjectInfo
  deriving DecidableEq, Repr

/-- A `userv1.User`: its object name and its status. -/
structure User where
  Name : String
  Status : UserStatus
  deriving DecidableEq, Repr

/-- `sets.NewString(items...).Has(x)`. -/
def setsHas (items : List String) (x : String) : Bool := items.contains x

/-- The inner loop of `toFindRelatedUsers` (lines 89-93): one append per
project-info entry whose `Project` equals `project`. -/
def appendByProject (project name : String) (infos : List ProjectInfo)
    (relatedUsers : List String) : List String :=
  infos.foldl
    (fun acc info => if info.Project == project then acc ++ [name] else acc)
    relatedUsers

/-- One iteration of the outer loop of `toFindRelatedUsers` (lines 83-94). -/
def relatedStep (tenant project : String) (relatedUsers : List String) (user : User) :
    List String :=
  if setsHas user.Status.BelongTenants tenant then
    relatedUsers ++ [user.Name]
  else
    appendByProject project user.Name user.Status.BelongProjectInfos relatedUsers

/-- `toFindRelatedUsers`; `listed` is the outcome of `r.List`. -/
def toFindRelatedUsers (listed : Except String (List User)) (tenant project : String) :
    Except String (List String) :=
  match listed with
  | .error err => .error err
  | .ok items => .ok (items.foldl (relatedStep tenant project) [])

/-- `extraTenantAndProject`. -/
def extraTenantAndProject (k : HncConstants) (ls : Labels) : String × String :=
  match ls with
  | none => ("", "")
  | some _ => (ls.index k.HncTenantLabel, ls.index k.HncProjectLabel)

/-- `allowedPaas`. -/
def allowedPaas (k : HncConstants) (ls : Labels) : Bool :=
  let (tenant, project) := extraTenantAndProject k ls
  if len tenant == 0 || len project == 0 then false else true

/-- A `reconcile.Request`: the name of the user to reconcile. -/
structure Request where
  Name : String
  deriving DecidableEq, Repr

/-- `namespaceHandleFunc`: the requests for an object with labels `objLabels`. -/
def namespaceHandleFunc (k : HncConstants) (listed : Except String (List User))
    (objLabels : Labels) : List Request :=
  let (tenant, project) := extraTenantAndProject k objLabels
  match toFindRelatedUsers listed tenant project with
  | .error _ => []
  | .ok users => users.foldl (fun requests user => requests ++ [Request.mk user]) []

/-- The four event kinds of controller-runtime, each with the labels of the
objects it carries. -/
inductive Event where
  | Create (object : Labels)
  | Update (objectOld objectNew : Labels)
  | Delete (object : Labels)
  | Generic (object : Labels)

/-- `namespacePredicateFn`. -/
def namespacePredicateFn (k : HncConstants) : Event → Bool
  | .Create object => allowedPaas k object
  | .Update _ objectNew => allowedPaas k objectNew
  | .Delete _ => false
  | .Generic _ => false

/-! ## `handler.go` -/

/-- The `errcode` values the handlers answer with. -/
inductive ErrorInfo where
  | InternalServerError
  | ClusterNotFoundError (cluster : String)
  | CustomReturn (status : Nat) (message : String)
  deriving DecidableEq, Repr

/-- One write to the gin context: `response.FailReturn` or
`response.SuccessReturn`. A handler is modelled by the list of its writes, in
order. -/
inductive Response (α : Type) where
  | FailReturn (e : ErrorInfo)
  | SuccessReturn (data : α)
  deriving DecidableEq, Repr

/-- A `resource.Quantity`, held as its exact numeric value; `Add` is exact. -/
abbrev Quantity := ℚ

/-- `quota.ZeroQ()`. -/
def ZeroQ : Quantity := 0

/-- A `v1.ResourceList`: resource name to quantity. -/
abbrev ResourceList := List (String × Quantity)

/-- `ResourceList.Cpu()`: the quantity under `"cpu"`, zero when absent. -/
def ResourceList.Cpu (rl : ResourceList) : Quantity := (rl.lookup "cpu").getD 0

/-- `ResourceList.Memory()`: the quantity under `"memory"`, zero when absent. -/
def ResourceList.Memory (rl : ResourceList) : Quantity := (rl.lookup "memory").getD 0

/-- A `v1.Node`, reduced to `Status.Capacity`. -/
structure Node where
  Capacity : ResourceList
  deriving DecidableEq, Repr

/-- The three accumulators of `getClusterResource` (lines 211-213). -/
structure Capacities where
  capacityCpu : Quantity
  capacityMem : Quantity
  capacityGpu : Quantity
  deriving DecidableEq, Repr

/-- One iteration of the node loop of `getClusterResource` (lines 215-222);
`gpuKey` is `quota.ResourceNvidiaGPU`. -/
def capacityStep (gpuKey : String) (acc : Capacities) (v : Node) : Capacities :=
  let acc1 := { acc with capacityCpu := acc.capacityCpu + v.Capacity.Cpu }
  let acc2 := { acc1 with capacityMem := acc1.capacityMem + v.Capacity.Memory }
  match v.Capacity.lookup gpuKey with
  | some nodeGpu => { acc2 with capacityCpu := acc2.capacityCpu + nodeGpu }
  | none => acc2

/-- The node loop of `getClusterResource`, from the three zero quantities. -/
def sumCapacity (gpuKey : String) (nodes : List Node) : Capacities :=
  nodes.foldl (capacityStep gpuKey) ⟨ZeroQ, ZeroQ, ZeroQ⟩

/-- The two functions behind `strproc.Str2int(capacityMem.String())` (line 237),
both defined outside of `handler.go`: `QuantityString` is the `String` method of
`resource.Quantity`, the text of the quantity, and `Str2int` is the helper of
`pkg/utils/strproc` that reads an integer back from that text. -/
structure MemReader where
  QuantityString : Quantity → String
  Str2int : String → Int

/-- The `res` map of `getClusterResource` (lines 231-238). -/
structure ResourceResult where
  capacityCpu : Quantity
  assignedCpu : Quantity
  assignedMem : Quantity
  capacityGpu : Quantity
  assignedGpu : Quantity
  capacityMem : String
  deriving DecidableEq, Repr

/-- `getClusterResource`. `cli` is the registry lookup for the queried cluster
(`none` is the nil client) holding the outcome of its node list call, and
`assigned` the outcome of `getAssignedResource`. A failed list call leaves
`nodes` at its zero value, and the handler goes on after answering it. The
memory capacity is reported as line 237 builds it: the integer read back from
the text of the quantity, divided by 1024 once, followed by `Mi`. -/
def getClusterResource (r : MemReader) (gpuKey cluster : String)
    (cli : Option (Except String (List Node)))
    (assigned : Except String (Quantity × Quantity × Quantity)) :
    List (Response ResourceResult) :=
  match cli with
  | none => [.FailReturn (.ClusterNotFoundError cluster)]
  | some listed =>
    let (nodes, written) : List Node × List (Response ResourceResult) :=
      match listed with
      | .error _ => ([], [.FailReturn .InternalServerError])
      | .ok items => (items, [])
    let caps := sumCapacity gpuKey nodes
    match assigned with
    | .error _ => written ++ [.FailReturn .InternalServerError]
    | .ok (assignedCpu, assignedMem, assignedGpu) =>
      written ++ [.SuccessReturn
        { capacityCpu := caps.capacityCpu
          assignedCpu := assignedCpu
          assignedMem := assignedMem
          capacityGpu := caps.capacityGpu
          assignedGpu := assignedGpu
          capacityMem :=
            toString (Int.tdiv (r.Str2int (r.QuantityString caps.capacityMem)) 1024) ++ "Mi" }]

/-- A `metav1.Time`: seconds and nanoseconds since the zero instant. -/
structure Time where
  sec : Int
  nsec : Nat
  deriving DecidableEq, Repr

/-- `(*metav1.Time).IsZero`: true on the nil pointer and on the zero instant. -/
def Time.IsZero : Option Time → Bool
  | none => true
  | some t => t.sec == 0 && t.nsec == 0

/-- A `v1alpha2.SubnamespaceAnchor`, reduced to the metadata the handler reads. -/
structure SubnamespaceAnchor where
  Name : String
  Labels : Labels
  DeletionTimestamp : Option Time
  deriving DecidableEq, Repr

/-- An entry of `multicluster.Interface().FuzzyCopy()`: the cluster name and its
client, the client being what `Cache().List` answers for the anchors under an
optional label selector of type `σ`. -/
structure FuzzyCluster (σ : Type) where
  Name : String
  Client : Option σ → Except String (List SubnamespaceAnchor)

/-- One item of `getSubNamespaces`: the values under the map keys `namespace`,
`cluster` and `project`. -/
structure SubnamespaceRecord where
  Namespace : String
  Cluster : String
  Project : String
  deriving DecidableEq, Repr

/-- The payload of `getSubNamespaces`. -/
structure SubNamespaces where
  total : Nat
  items : List SubnamespaceRecord
  deriving DecidableEq, Repr

/-- The anchor loop of `getSubNamespaces` (lines 287-297); `projectLabel` is
`constants.ProjectLabel`. -/
def appendAnchors (projectLabel clusterName : String) (anchors : List SubnamespaceAnchor)
    (items : List SubnamespaceRecord) : List SubnamespaceRecord :=
  anchors.foldl
    (fun acc anchor =>
      match anchor.Labels.get? projectLabel with
      | some project =>
        if Time.IsZero anchor.DeletionTimestamp then
          acc ++ [{ Namespace := anchor.Name, Cluster := clusterName, Project := project }]
        else acc
      | none => acc)
    items

/-- One iteration of the cluster loop of `getSubNamespaces` (lines 279-298). -/
def searchStep {σ : Type} (projectLabel : String) (opts : Option σ)
    (items : List SubnamespaceRecord) (cluster : FuzzyCluster σ) : List SubnamespaceRecord :=
  match cluster.Client opts with
  | .error _ => items
  | .ok anchors => appendAnchors projectLabel cluster.Name anchors items

/-- Lines 276-305 of `getSubNamespaces`, once the list options are fixed. -/
def searchClusters {σ : Type} (projectLabel : String) (opts : Option σ)
    (clusters : List (FuzzyCluster σ)) : List (Response SubNamespaces) :=
  let items := clusters.foldl (searchStep projectLabel opts) []
  [.SuccessReturn { total := items.length, items := items }]

/-- `getSubNamespaces`. `tenantLabel` and `projectLabel` are
`constants.TenantLabel` and `constants.ProjectLabel`, `parse` is `labels.Parse`
and `clusters` the registry snapshot. -/
def getSubNamespaces {σ : Type} (tenantLabel projectLabel : String)
    (parse : String → Except String σ) (tenant : String)
    (clusters : List (FuzzyCluster σ)) : List (Response SubNamespaces) :=
  if len tenant > 0 then
    match parse (tenantLabel ++ "=" ++ tenant) with
    | .error _ => [.FailReturn (.CustomReturn 500 "label selector parse failed")]
    | .ok labelSelector => searchClusters projectLabel (some labelSelector) clusters
  else
    searchClusters projectLabel none clusters

/-- A Go `[]byte`. -/
abbrev Bytes := List Nat

/-- The `scriptData` struct: the data to render the script. -/
structure scriptData where
  ClusterName : String
  KubeConfig : String
  K8sEndpoint : String
  NetworkType : String
  Description : String
  KubeCubeHost : String
  deriving DecidableEq, Repr

/-- The field of the `rest.Config` read by `addCluster`. -/
structure RestConfig where
  Host : String
  deriving DecidableEq, Repr

/-- What `addCluster` calls outside of the handler: `env.NodeIP()`,
`base64.StdEncoding.DecodeString`, `kubeconfig.LoadKubeConfigFromBytes`,
`scriptTemplate.Execute` and `base64.StdEncoding.EncodeToString`. -/
structure AddClusterEnv where
  NodeIP : String
  DecodeString : String → Except String Bytes
  LoadKubeConfigFromBytes : Bytes → Except String RestConfig
  Execute : scriptData → Except String Bytes
  EncodeToString : Bytes → String

/-- The constant `defaultNetworkType` of `addCluster`. -/
def defaultNetworkType : String := "calico"

/-- The constant `defaultDescription` of `addCluster`. -/
def defaultDescription : String := "this is member cluster"

/-- Lines 341-369 of `addCluster`: the defaults and the credential check,
giving the field set handed to the template or the failure answered. -/
def scriptFields (env : AddClusterEnv) (d : scriptData) : Except ErrorInfo scriptData :=
  let d1 := if len d.Description == 0 then { d with Description := defaultDescription } else d
  let d2 := if len d1.NetworkType == 0 then { d1 with NetworkType := defaultNetworkType } else d1
  let d3 := if len d2.KubeCubeHost == 0 then { d2 with KubeCubeHost := env.NodeIP } else d2
  match env.DecodeString d3.KubeConfig with
  | .error err => .error (.CustomReturn 400 ("kubeConfig invalid: " ++ err))
  | .ok kubeConfig =>
    match env.LoadKubeConfigFromBytes kubeConfig with
    | .error err => .error (.CustomReturn 400 ("kubeConfig invalid: " ++ err))
    | .ok config =>
      .ok (if len d3.K8sEndpoint == 0 then { d3 with K8sEndpoint := config.Host } else d3)

/-- `addCluster`; `bound` is the outcome of `c.ShouldBindJSON(&d)`. -/
def addCluster (env : AddClusterEnv) (bound : Except String scriptData) :
    List (Response String) :=
  match bound with
  | .error err => [.FailReturn (.CustomReturn 400 err)]
  | .ok d =>
    match scriptFields env d with
    | .error e => [.FailReturn e]
    | .ok fields =>
      match env.Execute fields with
      | .error err => [.FailReturn (.CustomReturn 400 err)]
      | .ok w => [.SuccessReturn (env.EncodeToString w)]

/-- A `clusterv1.Cluster` descriptor: its object name and its description. -/
structure Cluster where
  Name : String
  IsMemberCluster : Bool
  NetworkType : String
  Description : String
  KubernetesAPIEndpoint : String
  deriving DecidableEq, Repr

/-- An error of the store's `Create`, split the way `errors.IsAlreadyExists`
splits it; both carry the text of `err.Error()`. -/
inductive CreateError where
  | AlreadyExists (message : String)
  | Other (message : String)
  deriving DecidableEq, Repr

/-- `errors.IsAlreadyExists`. -/
def IsAlreadyExists : CreateError → Bool
  | .AlreadyExists _ => true
  | .Other _ => false

/-- `err.Error()`. -/
def CreateError.Error : CreateError → String
  | .AlreadyExists message => message
  | .Other message => message

/-- `registerCluster` over a store state of type `S`. `bound` is the outcome of
`c.ShouldBindJSON(cluster)` and `create` is `h.Direct().Create`, which answers
and leaves the store in a new state. -/
def registerCluster {S : Type} (create : S → Cluster → Option CreateError × S)
    (bound : Except String Cluster) (store : S) : List (Response String) × S :=
  match bound with
  | .error err => ([.FailReturn (.CustomReturn 400 err)], store)
  | .ok cluster =>
    match create store cluster with
    | (some err, store1) =>
      if IsAlreadyExists err then
        ([.SuccessReturn "success"], store1)
      else
        ([.FailReturn (.CustomReturn 500 err.Error)], store1)
    | (none, store1) => ([.SuccessReturn "success"], store1)

/-- Modelled from the spec: the pivot cluster's object store behind
`Direct().Create`, which is an outside service. Section 6 gives its contract,
`Create(object) -> Ok | AlreadyExists | Error`: a failure of the store itself
(`fault`) is answered as `Error` and leaves the store as it was, a descriptor
whose name is taken is refused with `AlreadyExists`, and any other descriptor is
added. -/
def storeCreate (fault : Option String) (store : List Cluster) (cluster : Cluster) :
    Option CreateError × List Cluster :=
  match fault with
  | some message => (some (.Other message), store)
  | none =>
    if store.any (fun c => c.Name == cluster.Name) then
      (some (.AlreadyExists ("clusters " ++ cluster.Name ++ " already exists")), store)
    else
      (none, store ++ [cluster])

/-- The inclusion rule of the subnamespace search, as the specification words
it: an anchor gives a record when it carries the project label and is not
marked for deletion. -/
def includedRecord (projectLabel clusterName : String) (anchor : SubnamespaceAnchor) :
    Option SubnamespaceRecord :=
  match anchor.Labels.get? projectLabel with
  | some project =>
    if Time.IsZero anchor.DeletionTimestamp then
      some { Namespace := anchor.Name, Cluster := clusterName, Project := project }
    else none
  | none => none

/-- What one cluster contributes to the subnamespace search, as the
specification words it: the included records of its anchors when its list call
succeeds, nothing when it fails. -/
def clusterRecords {σ : Type} (projectLabel : String) (opts : Option σ)
    (cluster : FuzzyCluster σ) : List SubnamespaceRecord :=
  match cluster.Client opts with
  | .error _ => []
  | .ok anchors => anchors.filterMap (includedRecord projectLabel cluster.Name)

/-! ## `ldap.go` -/

/-- The constant `ldapAttributeObjectClass`. -/
def ldapAttributeObjectClass : String := "objectClass"

/-- The constant `ldapAttributeObjectCategory`. -/
def ldapAttributeObjectCategory : String := "objectCategory"

/-- The `ldapProvider` struct. -/
structure ldapProvider where
  LdapObjectClass : String
  LdapLoginNameConfig : String
  LdapObjectCategory : String
  LdapServer : String
  LdapPort : String
  LdapBaseDN : String
  LdapAdminUserAccount : String
  LdapAdminPassword : String
  deriving DecidableEq, Repr

/-- `fmt.Sprintf("(%s=%s)", attr, value)`. -/
def filterTerm (attr value : String) : String := "(" ++ attr ++ "=" ++ value ++ ")"

/-- Lines 102-112 of `ldapProvider.Authenticate`: the `Filter` of the search
request. The object-category branch assigns the filter, the other branches
append to it. -/
def searchFilter (l : ldapProvider) (username : String) : String :=
  let filter0 := "("
  let filter1 :=
    if l.LdapObjectCategory != "" || l.LdapObjectClass != "" then filter0 ++ "&" else filter0
  let filter2 :=
    if l.LdapObjectCategory != "" then
      filterTerm ldapAttributeObjectCategory l.LdapObjectCategory
    else filter1
  let filter3 :=
    if l.LdapObjectClass != "" then
      filter2 ++ filterTerm ldapAttributeObjectClass l.LdapObjectClass
    else filter2
  filter3 ++ (filterTerm l.LdapLoginNameConfig username ++ ")")

/-- The nesting depth after reading `cs` from depth `depth`; `none` once a
closing parenthesis has no opening one before it. -/
def parenScan : List Char → Nat → Option Nat
  | [], depth => some depth
  | c :: cs, depth =>
    if c = '(' then parenScan cs (depth + 1)
    else if c = ')' then
      match depth with
      | 0 => none
      | d + 1 => parenScan cs d
    else parenScan cs depth

/-- The string is parenthesis-balanced: every closing parenthesis closes an
earlier opening one and none is left open. -/
def Balanced (s : String) : Bool := parenScan s.data 0 == some 0

/-- The opening parentheses of `s` minus its closing ones. -/
def parenExcess (s : String) : Int :=
  (s.data.count '(' : Int) - (s.data.count ')' : Int)

/-- The string holds no parenthesis. -/
def NoParen (s : String) : Prop := '(' ∉ s.data ∧ ')' ∉ s.data

/-- The membership test of the mapper, as the specification words it: the user
is recorded in `tenant`, or has a project-info entry for `project`. -/
def Related (tenant project : String) (u : User) : Prop :=
  tenant ∈ u.Status.BelongTenants ∨ ∃ info ∈ u.Status.BelongProjectInfos, info.Project = project

/-- The labels carry a non-empty value under `key`. -/
def CarriesNonEmpty (ls : Labels) (key : String) : Prop :=
  ∃ v, ls.get? key = some v ∧ v ≠ ""

/-! ## Go built-ins: lemmas -/

theorem len_eq_zero_iff (s : String) : len s = 0 ↔ s = "" := by
  constructor
  · intro h
    rcases s with ⟨cs⟩
    cases cs with
    | nil => rfl
    | cons c cs =>
      have hc := Char.utf8Size_pos c
      simp only [len, String.utf8ByteSize, String.utf8ByteSize.go] at h
      omega
  · rintro rfl
    rfl

theorem len_beq_zero (s : String) : (len s == 0) = decide (s = "") := by
  by_cases h : s = ""
  · subst h; rfl
  · have : len s ≠ 0 := fun h0 => h ((len_eq_zero_iff s).1 h0)
    simp [h, this]

/-! ## Reconciliation mapper: lemmas -/

theorem appendByProject_eq (project name : String) (infos : List ProjectInfo)
    (acc : List String) :
    appendByProject project name infos acc
      = acc ++ List.replicate (infos.countP (fun info => info.Project == project)) name := by
  induction infos generalizing acc with
  | nil => simp [appendByProject]
  | cons info rest ih =>
    have step : appendByProject project name (info :: rest) acc
        = appendByProject project name rest
            (if info.Project == project then acc ++ [name] else acc) := rfl
    rw [step, ih, List.countP_cons]
    by_cases h : (info.Project == project) = true
    · simp [h, List.replicate_succ]
    · simp [h]

theorem relatedStep_eq (tenant project : String) (acc : List String) (user : User) :
    relatedStep tenant project acc user = acc ++ relatedStep tenant project [] user := by
  unfold relatedStep
  split
  · simp
  · rw [appendByProject_eq, appendByProject_eq]; simp

theorem foldl_relatedStep (tenant project : String) (users : List User) (acc : List String) :
    users.foldl (relatedStep tenant project) acc
      = acc ++ (users.map (relatedStep tenant project [])).flatten := by
  induction users generalizing acc with
  | nil => simp
  | cons u rest ih =>
    rw [List.foldl_cons, ih, relatedStep_eq]
    simp [List.append_assoc]

theorem mem_relatedStep_nil (tenant project n : String) (user : User) :
    n ∈ relatedStep tenant project [] user ↔ n = user.Name ∧ Related tenant project user := by
  unfold relatedStep Related
  by_cases ht : tenant ∈ user.Status.BelongTenants
  · simp [setsHas, ht]
  · have hc : user.Status.BelongTenants.contains tenant = false := by simpa using ht
    simp only [setsHas, hc, ht, appendByProject_eq, List.nil_append, false_or,
      Bool.false_eq_true, if_false]
    rw [List.mem_replicate]
    simp only [ne_eq, List.countP_eq_zero, not_forall, beq_iff_eq, Bool.false_eq_true]
    constructor
    · rintro ⟨⟨info, hmem, hp⟩, hn⟩
      exact ⟨hn, info, hmem, by simpa using hp⟩
    · rintro ⟨hn, info, hmem, hp⟩
      exact ⟨⟨info, hmem, by simpa using hp⟩, hn⟩

theorem nodup_relatedStep_nil (tenant project : String) (user : User)
    (h : tenant ∈ user.Status.BelongTenants ∨
      user.Status.BelongProjectInfos.countP (fun info => info.Project == project) ≤ 1) :
    (relatedStep tenant project [] user).Nodup := by
  unfold relatedStep
  by_cases ht : tenant ∈ user.Status.BelongTenants
  · simp [setsHas, ht]
  · have hc : user.Status.BelongTenants.contains tenant = false := by simpa using ht
    have hle := h.resolve_left ht
    simp only [setsHas, hc, appendByProject_eq, List.nil_append, Bool.false_eq_true, if_false]
    rcases Nat.le_one_iff_eq_zero_or_eq_one.1 hle with h0 | h1
    · simp [h0]
    · simp [h1]

/-- With pairwise distinct user names, and every user either in the tenant or
with at most one project-info entry for the project, `toFindRelatedUsers`
returns no name twice. -/
theorem toFindRelatedUsers_nodup (users : List User) (tenant project : String)
    (hnames : (users.map User.Name).Nodup)
    (hinfos : ∀ u ∈ users, tenant ∈ u.Status.BelongTenants ∨
      u.Status.BelongProjectInfos.countP (fun info => info.Project == project) ≤ 1) :
    ∃ names, toFindRelatedUsers (.ok users) tenant project = .ok names ∧ names.Nodup := by
  refine ⟨_, rfl, ?_⟩
  rw [foldl_relatedStep, List.nil_append, List.nodup_flatten]
  constructor
  · intro l hl
    obtain ⟨u, hu, rfl⟩ := List.mem_map.1 hl
    exact nodup_relatedStep_nil tenant project u (hinfos u hu)
  · rw [List.pairwise_map]
    have hpair : users.Pairwise (fun a b => a.Name ≠ b.Name) := by
      simpa [List.Nodup, List.pairwise_map] using hnames
    refine hpair.imp ?_
    intro a b hab n hna hnb
    have h1 := ((mem_relatedStep_nil tenant project n a).1 hna).1
    have h2 := ((mem_relatedStep_nil tenant project n b).1 hnb).1
    exact hab (h1.symm.trans h2)

theorem allowedPaas_iff (k : HncConstants) (ls : Labels) :
    allowedPaas k ls = true
      ↔ CarriesNonEmpty ls k.HncTenantLabel ∧ CarriesNonEmpty ls k.HncProjectLabel := by
  cases ls with
  | none =>
    simp [allowedPaas, extraTenantAndProject, CarriesNonEmpty, Labels.get?, len]
    rfl
  | some kvs =>
    simp only [allowedPaas, extraTenantAndProject, Labels.index, Labels.get?, CarriesNonEmpty,
      len_beq_zero]
    cases ht : kvs.lookup k.HncTenantLabel <;> cases hp : kvs.lookup k.HncProjectLabel <;>
      simp

/-! ## Reconciliation mapper: claims -/

/-- C1: when the store returns `users`, `toFindRelatedUsers` succeeds and a name
occurs in its result if and only if a listed user of that name has `tenant`
among its `BelongTenants` or has a `BelongProjectInfos` entry whose `Project` is
`project`; on D1 (tenant acme), D2 (project web) and D3 (neither) with
`(acme, web)` the result is the names of D1 and D2. -/
theorem toFindRelatedUsers_mem_iff (users : List User) (tenant project : String) :
    (∃ names, toFindRelatedUsers (.ok users) tenant project = .ok names ∧
      ∀ n, n ∈ names ↔ ∃ u ∈ users, u.Name = n ∧ Related tenant project u) ∧
    toFindRelatedUsers
      (.ok [⟨"D1", ⟨["acme"], []⟩⟩, ⟨"D2", ⟨["other"], [⟨"web"⟩]⟩⟩, ⟨"D3", ⟨["other"], [⟨"db"⟩]⟩⟩])
      "acme" "web" = .ok ["D1", "D2"] := by
  refine ⟨⟨_, rfl, fun n => ?_⟩, rfl⟩
  rw [foldl_relatedStep, List.nil_append, List.mem_flatten]
  constructor
  · rintro ⟨l, hl, hn⟩
    obtain ⟨u, hu, rfl⟩ := List.mem_map.1 hl
    obtain ⟨hname, hrel⟩ := (mem_relatedStep_nil tenant project n u).1 hn
    exact ⟨u, hu, hname.symm, hrel⟩
  · rintro ⟨u, hu, hname, hrel⟩
    exact ⟨_, List.mem_map.2 ⟨u, hu, rfl⟩,
      (mem_relatedStep_nil tenant project n u).2 ⟨hname.symm, hrel⟩⟩

/-- C2: a single user (so the names are pairwise distinct) outside tenant `acme`
whose `BelongProjectInfos` holds two entries for project `web` is returned twice
by `toFindRelatedUsers`, and `namespaceHandleFunc` builds two requests for it. -/
theorem toFindRelatedUsers_emits_twice :
    (([⟨"u1", ⟨[], [⟨"web"⟩, ⟨"web"⟩]⟩⟩] : List User).map User.Name).Nodup ∧
    toFindRelatedUsers (.ok [⟨"u1", ⟨[], [⟨"web"⟩, ⟨"web"⟩]⟩⟩]) "acme" "web"
      = .ok ["u1", "u1"] ∧
    namespaceHandleFunc ⟨"tenant", "project"⟩ (.ok [⟨"u1", ⟨[], [⟨"web"⟩, ⟨"web"⟩]⟩⟩])
      (some [("tenant", "acme"), ("project", "web")]) = [⟨"u1"⟩, ⟨"u1"⟩] := by
  refine ⟨by decide, rfl, rfl⟩

/-- C3: the namespace predicate admits a create event exactly when the object
labels carry a non-empty tenant label and a non-empty project label, an update
event exactly when the new object labels do (whatever the old labels), and no
delete or generic event; a nil map, a missing label and an empty label value
each make the labels ineligible. -/
theorem namespacePredicateFn_spec (k : HncConstants) :
    (∀ object, namespacePredicateFn k (.Create object) = true
      ↔ CarriesNonEmpty object k.HncTenantLabel ∧ CarriesNonEmpty object k.HncProjectLabel) ∧
    (∀ objectOld objectNew, namespacePredicateFn k (.Update objectOld objectNew) = true
      ↔ CarriesNonEmpty objectNew k.HncTenantLabel ∧
        CarriesNonEmpty objectNew k.HncProjectLabel) ∧
    (∀ old1 old2 objectNew, namespacePredicateFn k (.Update old1 objectNew)
      = namespacePredicateFn k (.Update old2 objectNew)) ∧
    (∀ object, namespacePredicateFn k (.Delete object) = false) ∧
    (∀ object, namespacePredicateFn k (.Generic object) = false) ∧
    allowedPaas k none = false ∧
    (∀ ls : Labels, ls.get? k.HncTenantLabel = none ∨ ls.get? k.HncProjectLabel = none →
      allowedPaas k ls = false) ∧
    (∀ ls : Labels, ls.get? k.HncTenantLabel = some "" ∨ ls.get? k.HncProjectLabel = some "" →
      allowedPaas k ls = false) := by
  refine ⟨fun object => allowedPaas_iff k object, fun _ objectNew => allowedPaas_iff k objectNew,
    fun _ _ _ => rfl, fun _ => rfl, fun _ => rfl, rfl, fun ls h => ?_, fun ls h => ?_⟩
  · rw [Bool.eq_false_iff]
    intro hallowed
    obtain ⟨⟨v, hv, _⟩, ⟨w, hw, _⟩⟩ := (allowedPaas_iff k ls).1 hallowed
    rcases h with h | h
    · rw [h] at hv; cases hv
    · rw [h] at hw; cases hw
  · rw [Bool.eq_false_iff]
    intro hallowed
    obtain ⟨⟨v, hv, hne⟩, ⟨w, hw, hne2⟩⟩ := (allowedPaas_iff k ls).1 hallowed
    rcases h with h | h
    · rw [h] at hv; cases hv; exact hne rfl
    · rw [h] at hw; cases hw; exact hne2 rfl

/-! ## Subnamespace search: lemmas -/

theorem appendAnchors_eq (projectLabel clusterName : String)
    (anchors : List SubnamespaceAnchor) (items : List SubnamespaceRecord) :
    appendAnchors projectLabel clusterName anchors items
      = items ++ anchors.filterMap (includedRecord projectLabel clusterName) := by
  induction anchors generalizing items with
  | nil => simp [appendAnchors]
  | cons anchor rest ih =>
    have step : appendAnchors projectLabel clusterName (anchor :: rest) items
        = appendAnchors projectLabel clusterName rest
            (match anchor.Labels.get? projectLabel with
              | some project =>
                if Time.IsZero anchor.DeletionTimestamp then
                  items ++ [{ Namespace := anchor.Name, Cluster := clusterName,
                              Project := project }]
                else items
              | none => items) := rfl
    rw [step, ih]
    cases hl : anchor.Labels.get? projectLabel with
    | none => simp [List.filterMap_cons, includedRecord, hl]
    | some project =>
      by_cases hz : Time.IsZero anchor.DeletionTimestamp = true
      · simp [List.filterMap_cons, includedRecord, hl, hz]
      · simp [List.filterMap_cons, includedRecord, hl, hz]

theorem searchStep_eq {σ : Type} (projectLabel : String) (opts : Option σ)
    (items : List SubnamespaceRecord) (cluster : FuzzyCluster σ) :
    searchStep projectLabel opts items cluster
      = items ++ clusterRecords projectLabel opts cluster := by
  unfold searchStep clusterRecords
  cases cluster.Client opts with
  | error err => simp
  | ok anchors => simp [appendAnchors_eq]

theorem foldl_searchStep {σ : Type} (projectLabel : String) (opts : Option σ)
    (clusters : List (FuzzyCluster σ)) (items : List SubnamespaceRecord) :
    clusters.foldl (searchStep projectLabel opts) items
      = items ++ (clusters.map (clusterRecords projectLabel opts)).flatten := by
  induction clusters generalizing items with
  | nil => simp
  | cons c rest ih =>
    rw [List.foldl_cons, ih, searchStep_eq]
    simp [List.append_assoc]

theorem searchClusters_eq {σ : Type} (projectLabel : String) (opts : Option σ)
    (clusters : List (FuzzyCluster σ)) :
    searchClusters projectLabel opts clusters
      = [.SuccessReturn
          { total := ((clusters.map (clusterRecords projectLabel opts)).flatten).length
            items := (clusters.map (clusterRecords projectLabel opts)).flatten }] := by
  simp [searchClusters, foldl_searchStep]

theorem mem_clusterRecords {σ : Type} (projectLabel : String) (opts : Option σ)
    (c : FuzzyCluster σ) (r : SubnamespaceRecord) :
    r ∈ clusterRecords projectLabel opts c
      ↔ ∃ anchors, c.Client opts = .ok anchors ∧ ∃ a ∈ anchors, ∃ project,
          a.Labels.get? projectLabel = some project ∧ Time.IsZero a.DeletionTimestamp = true ∧
          r = { Namespace := a.Name, Cluster := c.Name, Project := project } := by
  unfold clusterRecords
  cases hc : c.Client opts with
  | error err => simp
  | ok anchors =>
    simp only [List.mem_filterMap, Except.ok.injEq, exists_eq_left']
    constructor
    · rintro ⟨a, ha, hr⟩
      unfold includedRecord at hr
      cases hl : a.Labels.get? projectLabel with
      | none => simp [hl] at hr
      | some project =>
        by_cases hz : Time.IsZero a.DeletionTimestamp = true
        · simp [hl, hz] at hr
          exact ⟨a, ha, project, hl, hz, hr.symm⟩
        · simp [hl, hz] at hr
    · rintro ⟨a, ha, project, hl, hz, rfl⟩
      exact ⟨a, ha, by simp [includedRecord, hl, hz]⟩

theorem length_clusterRecords {σ : Type} (projectLabel : String) (opts : Option σ)
    (c : FuzzyCluster σ) :
    (clusterRecords projectLabel opts c).length
      = match c.Client opts with
        | .error _ => 0
        | .ok anchors =>
          anchors.countP
            (fun a => (a.Labels.get? projectLabel).isSome && Time.IsZero a.DeletionTimestamp) := by
  unfold clusterRecords
  cases c.Client opts with
  | error err => rfl
  | ok anchors =>
    show (anchors.filterMap (includedRecord projectLabel c.Name)).length = anchors.countP _
    induction anchors with
    | nil => rfl
    | cons a rest ih =>
      rw [List.countP_cons, ← ih]
      cases hl : a.Labels.get? projectLabel with
      | none => simp [List.filterMap_cons, includedRecord, hl]
      | some project =>
        by_cases hz : Time.IsZero a.DeletionTimestamp = true
        · simp [List.filterMap_cons, includedRecord, hl, hz]
        · simp [List.filterMap_cons, includedRecord, hl, hz]

theorem getSubNamespaces_eq {σ : Type} (tenantLabel projectLabel : String)
    (parse : String → Except String σ) (tenant : String)
    (hparse : 0 < len tenant → ∃ sel, parse (tenantLabel ++ "=" ++ tenant) = .ok sel) :
    ∃ opts : Option σ,
      (len tenant = 0 → opts = none) ∧
      (0 < len tenant → ∃ sel, parse (tenantLabel ++ "=" ++ tenant) = .ok sel ∧ opts = some sel) ∧
      ∀ clusters, getSubNamespaces tenantLabel projectLabel parse tenant clusters
        = searchClusters projectLabel opts clusters := by
  by_cases ht : 0 < len tenant
  · obtain ⟨sel, hsel⟩ := hparse ht
    refine ⟨some sel, fun h0 => absurd h0 (by omega), fun _ => ⟨sel, hsel, rfl⟩, fun clusters => ?_⟩
    simp [getSubNamespaces, ht, hsel]
  · refine ⟨none, fun _ => rfl, fun h => absurd h ht, fun clusters => ?_⟩
    simp [getSubNamespaces, ht]

/-! ## Subnamespace search: claims -/

/-- C4: when the tenant filter parses, `getSubNamespaces` answers with one
success response whose items are the concatenation, over the clusters of the
snapshot in order, of the included records of each cluster whose list call
succeeded; a cluster whose list call fails can be taken out of the snapshot
without changing the answer. -/
theorem getSubNamespaces_partial_failure {σ : Type} (tenantLabel projectLabel : String)
    (parse : String → Except String σ) (tenant : String)
    (hparse : 0 < len tenant → ∃ sel, parse (tenantLabel ++ "=" ++ tenant) = .ok sel) :
    ∃ opts : Option σ,
      (len tenant = 0 → opts = none) ∧
      (0 < len tenant → ∃ sel, parse (tenantLabel ++ "=" ++ tenant) = .ok sel ∧ opts = some sel) ∧
      (∀ clusters, ∃ items,
        getSubNamespaces tenantLabel projectLabel parse tenant clusters
          = [.SuccessReturn { total := items.length, items := items }] ∧
        items = (clusters.map (clusterRecords projectLabel opts)).flatten) ∧
      (∀ pre post c, (∃ err, c.Client opts = .error err) →
        getSubNamespaces tenantLabel projectLabel parse tenant (pre ++ c :: post)
          = getSubNamespaces tenantLabel projectLabel parse tenant (pre ++ post)) := by
  obtain ⟨opts, hnone, hsome, heq⟩ := getSubNamespaces_eq tenantLabel projectLabel parse tenant hparse
  refine ⟨opts, hnone, hsome, fun clusters => ⟨_, ?_, rfl⟩, fun pre post c hc => ?_⟩
  · rw [heq, searchClusters_eq]
  · obtain ⟨err, herr⟩ := hc
    have hnil : clusterRecords projectLabel opts c = [] := by simp [clusterRecords, herr]
    rw [heq, heq, searchClusters_eq, searchClusters_eq]
    simp [hnil]

/-- C4 at a snapshot of three clusters under tenant filter `acme`: the second
cluster fails to list, and the answer holds the records of the first and the
third. -/
theorem getSubNamespaces_partial_failure_witness :
    (0 < len "acme" → ∃ sel, (fun s => (Except.ok s : Except String String))
        ("kubecube.io/tenant" ++ "=" ++ "acme") = .ok sel) ∧
    getSubNamespaces "kubecube.io/tenant" "kubecube.io/project"
      (fun s => (Except.ok s : Except String String)) "acme"
      [⟨"pivot", fun _ => .ok [⟨"ns-a", some [("kubecube.io/project", "web")], none⟩]⟩,
       ⟨"member-1", fun _ => .error "connection refused"⟩,
       ⟨"member-2", fun _ => .ok [⟨"ns-b", some [("kubecube.io/project", "db")], none⟩]⟩]
      = [.SuccessReturn ⟨2, [⟨"ns-a", "pivot", "web"⟩, ⟨"ns-b", "member-2", "db"⟩]⟩] := by
  have hp : 0 < len "acme" → ∃ sel, (fun s => (Except.ok s : Except String String))
      ("kubecube.io/tenant" ++ "=" ++ "acme") = .ok sel := fun _ => ⟨_, rfl⟩
  refine ⟨hp, ?_⟩
  obtain ⟨opts, -, -, hitems, -⟩ :=
    getSubNamespaces_partial_failure "kubecube.io/tenant" "kubecube.io/project"
      (fun s => (Except.ok s : Except String String)) "acme" hp
  obtain ⟨items, hresp, hflat⟩ := hitems
    [⟨"pivot", fun _ => .ok [⟨"ns-a", some [("kubecube.io/project", "web")], none⟩]⟩,
     ⟨"member-1", fun _ => .error "connection refused"⟩,
     ⟨"member-2", fun _ => .ok [⟨"ns-b", some [("kubecube.io/project", "db")], none⟩]⟩]
  rw [hresp, hflat]
  rfl

/-- C5: when the tenant filter parses, the items of `getSubNamespaces` hold a
record exactly for the anchors, listed by a cluster whose list call succeeded,
that carry the project label and have a zero deletion timestamp, the record
being the anchor name, the cluster name and the label value; there is one record
per such anchor and cluster (nothing is merged across clusters), and the total
is the number of items. -/
theorem getSubNamespaces_records {σ : Type} (tenantLabel projectLabel : String)
    (parse : String → Except String σ) (tenant : String)
    (hparse : 0 < len tenant → ∃ sel, parse (tenantLabel ++ "=" ++ tenant) = .ok sel) :
    ∃ opts : Option σ, ∀ clusters, ∃ items,
      getSubNamespaces tenantLabel projectLabel parse tenant clusters
        = [.SuccessReturn { total := items.length, items := items }] ∧
      (∀ r, r ∈ items ↔ ∃ c ∈ clusters, ∃ anchors, c.Client opts = .ok anchors ∧
        ∃ a ∈ anchors, ∃ project, a.Labels.get? projectLabel = some project ∧
          Time.IsZero a.DeletionTimestamp = true ∧
          r = { Namespace := a.Name, Cluster := c.Name, Project := project }) ∧
      items.length = (clusters.map (fun c =>
        match c.Client opts with
        | .error _ => 0
        | .ok anchors =>
          anchors.countP
            (fun a => (a.Labels.get? projectLabel).isSome && Time.IsZero a.DeletionTimestamp))).sum := by
  obtain ⟨opts, -, -, heq⟩ := getSubNamespaces_eq tenantLabel projectLabel parse tenant hparse
  refine ⟨opts, fun clusters =>
    ⟨(clusters.map (clusterRecords projectLabel opts)).flatten, ?_, fun r => ?_, ?_⟩⟩
  · rw [heq, searchClusters_eq]
  · rw [List.mem_flatten]
    constructor
    · rintro ⟨l, hl, hr⟩
      obtain ⟨c, hc, rfl⟩ := List.mem_map.1 hl
      exact ⟨c, hc, (mem_clusterRecords projectLabel opts c r).1 hr⟩
    · rintro ⟨c, hc, h⟩
      exact ⟨_, List.mem_map.2 ⟨c, hc, rfl⟩, (mem_clusterRecords projectLabel opts c r).2 h⟩
  · rw [List.length_flatten, List.map_map]
    congr 1
    apply List.map_congr_left
    intro c _
    exact length_clusterRecords projectLabel opts c

/-- C5 without a tenant filter, on two clusters that both hold a namespace
`ns-a`: each gives its own record, while an anchor without the project label
and an anchor marked for deletion give none. -/
theorem getSubNamespaces_records_witness :
    (0 < len "" → ∃ sel, (fun s => (Except.ok s : Except String String))
        ("kubecube.io/tenant" ++ "=" ++ "") = .ok sel) ∧
    ∃ items,
      getSubNamespaces "kubecube.io/tenant" "kubecube.io/project"
        (fun s => (Except.ok s : Except String String)) ""
        [⟨"pivot", fun _ => .ok [⟨"ns-a", some [("kubecube.io/project", "web")], none⟩,
                                  ⟨"ns-x", some [("kubecube.io/tenant", "acme")], none⟩]⟩,
         ⟨"member-1", fun _ => .ok [⟨"ns-a", some [("kubecube.io/project", "web")], none⟩,
                                     ⟨"ns-y", some [("kubecube.io/project", "web")],
                                       some ⟨63800000000, 0⟩⟩]⟩]
        = [.SuccessReturn { total := items.length, items := items }] ∧
      ⟨"ns-a", "pivot", "web"⟩ ∈ items ∧ ⟨"ns-a", "member-1", "web"⟩ ∈ items ∧
      items.length = 2 := by
  have hp : 0 < len "" → ∃ sel, (fun s => (Except.ok s : Except String String))
      ("kubecube.io/tenant" ++ "=" ++ "") = .ok sel := fun _ => ⟨_, rfl⟩
  refine ⟨hp, ?_⟩
  obtain ⟨opts, h⟩ :=
    getSubNamespaces_records "kubecube.io/tenant" "kubecube.io/project"
      (fun s => (Except.ok s : Except String String)) "" hp
  obtain ⟨items, hresp, hmem, hlen⟩ := h
    [⟨"pivot", fun _ => .ok [⟨"ns-a", some [("kubecube.io/project", "web")], none⟩,
                              ⟨"ns-x", some [("kubecube.io/tenant", "acme")], none⟩]⟩,
     ⟨"member-1", fun _ => .ok [⟨"ns-a", some [("kubecube.io/project", "web")], none⟩,
                                 ⟨"ns-y", some [("kubecube.io/project", "web")],
                                   some ⟨63800000000, 0⟩⟩]⟩]
  refine ⟨items, hresp, (hmem _).2 ?_, (hmem _).2 ?_, hlen.trans rfl⟩
  · exact ⟨_, List.mem_cons_self _ _, _, rfl, _, List.mem_cons_self _ _, "web", rfl, rfl, rfl⟩
  · exact ⟨_, List.mem_cons_of_mem _ (List.mem_cons_self _ _), _, rfl, _,
      List.mem_cons_self _ _, "web", rfl, rfl, rfl⟩

/-! ## Cluster resources: lemmas -/

theorem foldl_capacityStep (gpuKey : String) (nodes : List Node) (acc : Capacities) :
    nodes.foldl (capacityStep gpuKey) acc
      = { capacityCpu := acc.capacityCpu
            + (nodes.map (fun v => v.Capacity.Cpu + (v.Capacity.lookup gpuKey).getD 0)).sum
          capacityMem := acc.capacityMem + (nodes.map (fun v => v.Capacity.Memory)).sum
          capacityGpu := acc.capacityGpu } := by
  induction nodes generalizing acc with
  | nil => simp
  | cons v rest ih =>
    rw [List.foldl_cons, ih]
    unfold capacityStep
    cases h : v.Capacity.lookup gpuKey with
    | none => simp [h, add_assoc]
    | some nodeGpu => simp [h, add_assoc]

theorem sumCapacity_eq (gpuKey : String) (nodes : List Node) :
    sumCapacity gpuKey nodes
      = { capacityCpu :=
            (nodes.map (fun v => v.Capacity.Cpu + (v.Capacity.lookup gpuKey).getD 0)).sum
          capacityMem := (nodes.map (fun v => v.Capacity.Memory)).sum
          capacityGpu := 0 } := by
  simp [sumCapacity, foldl_capacityStep, ZeroQ]

/-! ## Cluster resources: claims -/

/-- C6: on a single node with CPU capacity 4 that also carries the accelerator
key with quantity 2, `getClusterResource` answers with success and reports
`capacityCpu` 6 and `capacityGpu` 0: the accelerator quantity is added to the
CPU accumulator. -/
theorem getClusterResource_cpu_includes_gpu (r : MemReader) :
    ∃ res,
      getClusterResource r "nvidia.com/gpu" "member-1"
        (some (.ok [⟨[("cpu", 4), ("memory", 8388608), ("nvidia.com/gpu", 2)]⟩]))
        (.ok (1, 2, 0)) = [.SuccessReturn res] ∧
      res.capacityCpu = 6 ∧ res.capacityGpu = 0 := by
  refine ⟨_, rfl, ?_, ?_⟩
  · simp [sumCapacity_eq, ResourceList.Cpu, List.lookup_cons]
    norm_num
  · simp [sumCapacity_eq]

/-- C7: on two nodes that carry the accelerator key with quantities 1 and 2,
`getClusterResource` reports `capacityGpu` 0 and `capacityCpu` 15: nothing is
ever added to the accelerator accumulator. The memory capacity is the text of
the zero quantity read back, so `0Mi` when that reads as 0. -/
theorem getClusterResource_gpu_stays_zero (r : MemReader) :
    getClusterResource r "nvidia.com/gpu" "member-1"
      (some (.ok [⟨[("cpu", 4), ("nvidia.com/gpu", 1)]⟩, ⟨[("cpu", 8), ("nvidia.com/gpu", 2)]⟩]))
      (.ok (0, 0, 0))
      = [.SuccessReturn
          { capacityCpu := 15, assignedCpu := 0, assignedMem := 0, capacityGpu := 0,
            assignedGpu := 0,
            capacityMem := toString (Int.tdiv (r.Str2int (r.QuantityString 0)) 1024) ++ "Mi" }] ∧
    (r.Str2int (r.QuantityString 0) = 0 →
      getClusterResource r "nvidia.com/gpu" "member-1"
        (some (.ok [⟨[("cpu", 4), ("nvidia.com/gpu", 1)]⟩,
          ⟨[("cpu", 8), ("nvidia.com/gpu", 2)]⟩]))
        (.ok (0, 0, 0))
        = [.SuccessReturn
            { capacityCpu := 15, assignedCpu := 0, assignedMem := 0, capacityGpu := 0,
              assignedGpu := 0, capacityMem := "0Mi" }]) := by
  have h : getClusterResource r "nvidia.com/gpu" "member-1"
      (some (.ok [⟨[("cpu", 4), ("nvidia.com/gpu", 1)]⟩, ⟨[("cpu", 8), ("nvidia.com/gpu", 2)]⟩]))
      (.ok (0, 0, 0))
      = [.SuccessReturn
          { capacityCpu := 15, assignedCpu := 0, assignedMem := 0, capacityGpu := 0,
            assignedGpu := 0,
            capacityMem :=
              toString (Int.tdiv (r.Str2int (r.QuantityString 0)) 1024) ++ "Mi" }] := by
    simp [getClusterResource, sumCapacity_eq, ResourceList.Cpu, ResourceList.Memory,
      List.lookup_cons]
    norm_num
  refine ⟨h, fun h0 => ?_⟩
  rw [h, h0]
  rfl

/-- C8: when the assigned resources are obtained, `getClusterResource` reports
`capacityMem` as the integer read back from the text of the summed memory
quantity, divided by 1024 once, followed by `Mi`. For one node of 2^31 bytes
this is `0Mi` when the text is `2Gi` and reads as 2, and `2097152Mi` when the
text is `2147483648` and reads as that number; it is not `2048Mi`. -/
theorem getClusterResource_capacityMem_divides_once :
    (∀ (r : MemReader) (gpuKey cluster : String) (nodes : List Node)
        (assignedCpu assignedMem assignedGpu : Quantity),
      ∃ res, getClusterResource r gpuKey cluster (some (.ok nodes))
          (.ok (assignedCpu, assignedMem, assignedGpu)) = [.SuccessReturn res] ∧
        res.capacityMem
          = toString (Int.tdiv
              (r.Str2int (r.QuantityString (nodes.map (fun v => v.Capacity.Memory)).sum))
              1024) ++ "Mi") ∧
    (∀ r : MemReader, r.QuantityString 2147483648 = "2Gi" → r.Str2int "2Gi" = 2 →
      ∃ res, getClusterResource r "nvidia.com/gpu" "member-1"
          (some (.ok [⟨[("cpu", 4), ("memory", 2147483648)]⟩])) (.ok (1, 2, 0))
            = [.SuccessReturn res] ∧
        res.capacityMem = "0Mi" ∧ res.capacityMem ≠ "2048Mi") ∧
    (∀ r : MemReader, r.QuantityString 2147483648 = "2147483648" →
      r.Str2int "2147483648" = 2147483648 →
      ∃ res, getClusterResource r "nvidia.com/gpu" "member-1"
          (some (.ok [⟨[("cpu", 4), ("memory", 2147483648)]⟩])) (.ok (1, 2, 0))
            = [.SuccessReturn res] ∧
        res.capacityMem = "2097152Mi" ∧ res.capacityMem ≠ "2048Mi") ∧
    (∃ res, getClusterResource
        ⟨fun q => if q = 2147483648 then "2Gi" else "0", fun s => if s = "2Gi" then 2 else 0⟩
        "nvidia.com/gpu" "member-1"
        (some (.ok [⟨[("cpu", 4), ("memory", 2147483648)]⟩])) (.ok (1, 2, 0))
          = [.SuccessReturn res] ∧
      res.capacityMem = "0Mi") := by
  have hsum : ([(⟨[("cpu", 4), ("memory", 2147483648)]⟩ : Node)].map
      (fun v => v.Capacity.Memory)).sum = (2147483648 : ℚ) := by
    simp [ResourceList.Memory, List.lookup_cons]
  have hgen : ∀ (r : MemReader) (gpuKey cluster : String) (nodes : List Node)
      (assignedCpu assignedMem assignedGpu : Quantity),
      ∃ res, getClusterResource r gpuKey cluster (some (.ok nodes))
          (.ok (assignedCpu, assignedMem, assignedGpu)) = [.SuccessReturn res] ∧
        res.capacityMem
          = toString (Int.tdiv
              (r.Str2int (r.QuantityString (nodes.map (fun v => v.Capacity.Memory)).sum))
              1024) ++ "Mi" := by
    intro r gpuKey cluster nodes assignedCpu assignedMem assignedGpu
    refine ⟨_, rfl, ?_⟩
    simp only [sumCapacity_eq]
  refine ⟨hgen, fun r htext hread => ?_, fun r htext hread => ?_, ?_⟩
  · obtain ⟨res, hres, hmem⟩ := hgen r "nvidia.com/gpu" "member-1"
      [⟨[("cpu", 4), ("memory", 2147483648)]⟩] 1 2 0
    rw [hsum, htext, hread] at hmem
    have h0 : res.capacityMem = "0Mi" := hmem.trans (by decide)
    exact ⟨res, hres, h0, by rw [h0]; decide⟩
  · obtain ⟨res, hres, hmem⟩ := hgen r "nvidia.com/gpu" "member-1"
      [⟨[("cpu", 4), ("memory", 2147483648)]⟩] 1 2 0
    rw [hsum, htext, hread] at hmem
    have h0 : res.capacityMem = "2097152Mi" := hmem.trans (by decide)
    exact ⟨res, hres, h0, by rw [h0]; decide⟩
  · obtain ⟨res, hres, hmem⟩ := hgen
      ⟨fun q => if q = 2147483648 then "2Gi" else "0", fun s => if s = "2Gi" then 2 else 0⟩
      "nvidia.com/gpu" "member-1" [⟨[("cpu", 4), ("memory", 2147483648)]⟩] 1 2 0
    rw [hsum] at hmem
    exact ⟨res, hres, hmem.trans (by simp; decide)⟩

/-! ## Cluster admission: lemmas -/

theorem scriptFields_eq (env : AddClusterEnv) (d : scriptData) (kubeConfig : Bytes)
    (config : RestConfig) (hdecode : env.DecodeString d.KubeConfig = .ok kubeConfig)
    (hload : env.LoadKubeConfigFromBytes kubeConfig = .ok config) :
    scriptFields env d = .ok
      { ClusterName := d.ClusterName
        KubeConfig := d.KubeConfig
        K8sEndpoint := if d.K8sEndpoint = "" then config.Host else d.K8sEndpoint
        NetworkType := if d.NetworkType = "" then "calico" else d.NetworkType
        Description := if d.Description = "" then "this is member cluster" else d.Description
        KubeCubeHost := if d.KubeCubeHost = "" then env.NodeIP else d.KubeCubeHost } := by
  by_cases h1 : d.Description = "" <;> by_cases h2 : d.NetworkType = "" <;>
    by_cases h3 : d.KubeCubeHost = "" <;> by_cases h4 : d.K8sEndpoint = "" <;>
    simp [scriptFields, len_beq_zero, h1, h2, h3, h4, hdecode, hload, defaultNetworkType,
      defaultDescription]

theorem storeCreate_present (store : List Cluster) (cluster : Cluster)
    (h : cluster.Name ∈ store.map Cluster.Name) :
    registerCluster (storeCreate none) (.ok cluster) store
      = ([.SuccessReturn "success"], store) := by
  have hany : store.any (fun c => c.Name == cluster.Name) = true := by
    obtain ⟨c, hc, hname⟩ := List.mem_map.1 h
    exact List.any_eq_true.2 ⟨c, hc, by simp [hname]⟩
  simp [registerCluster, storeCreate, hany, IsAlreadyExists]

theorem storeCreate_absent (store : List Cluster) (cluster : Cluster)
    (h : cluster.Name ∉ store.map Cluster.Name) :
    registerCluster (storeCreate none) (.ok cluster) store
      = ([.SuccessReturn "success"], store ++ [cluster]) := by
  have hany : store.any (fun c => c.Name == cluster.Name) = false := by
    rw [Bool.eq_false_iff]
    intro hany
    obtain ⟨c, hc, hname⟩ := List.any_eq_true.1 hany
    exact h (List.mem_map.2 ⟨c, hc, by simpa using hname⟩)
  simp [registerCluster, storeCreate, hany]

/-! ## Cluster admission: claims -/

/-- C9: `registerCluster` answers `success` when the create succeeds and when
the store answers AlreadyExists, and an internal-server error (status 500)
with the store's message for any other create failure; on a store with
pairwise distinct names that answers every create, registering the same
descriptor twice answers `success` both times, the second call leaves the store
as the first left it, and the store then holds exactly one descriptor under
that name. -/
theorem registerCluster_idempotent (store : List Cluster) (cluster : Cluster)
    (hstore : (store.map Cluster.Name).Nodup) :
    (∀ (S : Type) (create : S → Cluster → Option CreateError × S) (st : S) (c : Cluster),
      registerCluster create (.ok c) st
        = (match (create st c).1 with
            | none => [.SuccessReturn "success"]
            | some (.AlreadyExists _) => [.SuccessReturn "success"]
            | some (.Other message) => [.FailReturn (.CustomReturn 500 message)],
           (create st c).2)) ∧
    (registerCluster (storeCreate none) (.ok cluster) store).1 = [.SuccessReturn "success"] ∧
    (registerCluster (storeCreate none) (.ok cluster)
      (registerCluster (storeCreate none) (.ok cluster) store).2)
      = ([.SuccessReturn "success"], (registerCluster (storeCreate none) (.ok cluster) store).2) ∧
    (((registerCluster (storeCreate none) (.ok cluster) store).2).map Cluster.Name).count
      cluster.Name = 1 := by
  refine ⟨fun S create st c => ?_, ?_⟩
  · rcases hc : create st c with ⟨_ | err, st1⟩
    · simp [registerCluster, hc]
    · cases err <;> simp [registerCluster, hc, IsAlreadyExists, CreateError.Error]
  · by_cases h : cluster.Name ∈ store.map Cluster.Name
    · rw [storeCreate_present store cluster h]
      exact ⟨rfl, storeCreate_present store cluster h, List.count_eq_one_of_mem hstore h⟩
    · rw [storeCreate_absent store cluster h]
      refine ⟨rfl, storeCreate_present _ cluster (by simp), ?_⟩
      simp [List.count_append, List.count_eq_zero_of_not_mem h]

/-- C9 on a store that holds the pivot descriptor only: registering `member-1`
twice. -/
theorem registerCluster_idempotent_witness :
    (([⟨"pivot-cluster", false, "calico", "pivot", "https://10.0.0.1:6443"⟩] :
        List Cluster).map Cluster.Name).Nodup ∧
    (registerCluster (storeCreate none)
      (.ok ⟨"member-1", true, "calico", "this is member cluster", "https://10.0.0.2:6443"⟩)
      (registerCluster (storeCreate none)
        (.ok ⟨"member-1", true, "calico", "this is member cluster", "https://10.0.0.2:6443"⟩)
        [⟨"pivot-cluster", false, "calico", "pivot", "https://10.0.0.1:6443"⟩]).2)
      = ([.SuccessReturn "success"],
         [⟨"pivot-cluster", false, "calico", "pivot", "https://10.0.0.1:6443"⟩,
          ⟨"member-1", true, "calico", "this is member cluster", "https://10.0.0.2:6443"⟩]) :=
  ⟨by decide,
   (registerCluster_idempotent
      [⟨"pivot-cluster", false, "calico", "pivot", "https://10.0.0.1:6443"⟩]
      ⟨"member-1", true, "calico", "this is member cluster", "https://10.0.0.2:6443"⟩
      (by decide)).2.2.1.trans rfl⟩

/-- C10: for a join payload whose `kubeConfig` decodes and parses, the field
set handed to the template keeps `clusterName` and `kubeConfig`, keeps every
supplied non-empty `networkType`, `description`, pivot host and endpoint, and
fills an empty one with `calico`, `this is member cluster`, the local node
address and the API host of the parsed credential bundle; `addCluster` answers
with the encoded rendering of that field set, or with status 400 when the
template fails. -/
theorem addCluster_fields (env : AddClusterEnv) (d : scriptData) (kubeConfig : Bytes)
    (config : RestConfig) (hdecode : env.DecodeString d.KubeConfig = .ok kubeConfig)
    (hload : env.LoadKubeConfigFromBytes kubeConfig = .ok config) :
    ∃ fields, scriptFields env d = .ok fields ∧
      addCluster env (.ok d)
        = (match env.Execute fields with
            | .error err => [.FailReturn (.CustomReturn 400 err)]
            | .ok w => [.SuccessReturn (env.EncodeToString w)]) ∧
      fields.NetworkType = (if d.NetworkType = "" then "calico" else d.NetworkType) ∧
      fields.Description
        = (if d.Description = "" then "this is member cluster" else d.Description) ∧
      fields.KubeCubeHost = (if d.KubeCubeHost = "" then env.NodeIP else d.KubeCubeHost) ∧
      fields.K8sEndpoint = (if d.K8sEndpoint = "" then config.Host else d.K8sEndpoint) ∧
      fields.ClusterName = d.ClusterName ∧ fields.KubeConfig = d.KubeConfig := by
  refine ⟨_, scriptFields_eq env d kubeConfig config hdecode hload, ?_, rfl, rfl, rfl, rfl,
    rfl, rfl⟩
  simp only [addCluster, scriptFields_eq env d kubeConfig config hdecode hload]

/-- C10 on a payload that supplies `networkType` `flannel` and leaves the
description, the pivot host and the endpoint empty. -/
theorem addCluster_fields_witness :
    (⟨"10.0.0.1", fun s => if s = "" then .error "empty" else .ok [107, 117, 98, 101],
      fun _ => .ok ⟨"https://10.0.0.2:6443"⟩, fun _ => .ok [35, 33],
      fun _ => "IyE="⟩ : AddClusterEnv).DecodeString
        (⟨"member-1", "a3ViZQ==", "", "flannel", "", ""⟩ : scriptData).KubeConfig
      = .ok [107, 117, 98, 101] ∧
    (⟨"10.0.0.1", fun s => if s = "" then .error "empty" else .ok [107, 117, 98, 101],
      fun _ => .ok ⟨"https://10.0.0.2:6443"⟩, fun _ => .ok [35, 33],
      fun _ => "IyE="⟩ : AddClusterEnv).LoadKubeConfigFromBytes [107, 117, 98, 101]
      = .ok ⟨"https://10.0.0.2:6443"⟩ ∧
    ∃ fields,
      scriptFields
        ⟨"10.0.0.1", fun s => if s = "" then .error "empty" else .ok [107, 117, 98, 101],
          fun _ => .ok ⟨"https://10.0.0.2:6443"⟩, fun _ => .ok [35, 33], fun _ => "IyE="⟩
        ⟨"member-1", "a3ViZQ==", "", "flannel", "", ""⟩ = .ok fields ∧
      fields.NetworkType = "flannel" ∧ fields.Description = "this is member cluster" ∧
      fields.KubeCubeHost = "10.0.0.1" ∧ fields.K8sEndpoint = "https://10.0.0.2:6443" ∧
      fields.ClusterName = "member-1" ∧ fields.KubeConfig = "a3ViZQ==" := by
  obtain ⟨fields, hf, -, h1, h2, h3, h4, h5, h6⟩ :=
    addCluster_fields
      ⟨"10.0.0.1", fun s => if s = "" then .error "empty" else .ok [107, 117, 98, 101],
        fun _ => .ok ⟨"https://10.0.0.2:6443"⟩, fun _ => .ok [35, 33], fun _ => "IyE="⟩
      ⟨"member-1", "a3ViZQ==", "", "flannel", "", ""⟩ [107, 117, 98, 101]
      ⟨"https://10.0.0.2:6443"⟩ rfl rfl
  exact ⟨rfl, rfl, fields, hf, h1.trans (by decide), h2.trans (by decide),
    h3.trans (by decide), h4.trans (by decide), h5, h6⟩

/-! ## Cluster resources: the failed node list -/

/-- C11: for a cluster of the registry whose node list call fails,
`getClusterResource` answers `InternalServerError` and then goes on: when the
assigned resources are obtained it writes a second response, a success with the
resource map of an empty node list (its memory capacity `0Mi` when the text of
the zero quantity reads as 0), and when they are not it writes a second
`InternalServerError`. -/
theorem getClusterResource_list_failure_writes_twice (r : MemReader)
    (gpuKey cluster err : String) :
    (∀ assignedCpu assignedMem assignedGpu : Quantity,
      getClusterResource r gpuKey cluster (some (.error err))
          (.ok (assignedCpu, assignedMem, assignedGpu))
        = [.FailReturn .InternalServerError,
           .SuccessReturn
            { capacityCpu := 0, assignedCpu := assignedCpu, assignedMem := assignedMem,
              capacityGpu := 0, assignedGpu := assignedGpu,
              capacityMem :=
                toString (Int.tdiv (r.Str2int (r.QuantityString 0)) 1024) ++ "Mi" }]) ∧
    (r.Str2int (r.QuantityString 0) = 0 →
      ∀ assignedCpu assignedMem assignedGpu : Quantity,
        getClusterResource r gpuKey cluster (some (.error err))
            (.ok (assignedCpu, assignedMem, assignedGpu))
          = [.FailReturn .InternalServerError,
             .SuccessReturn
              { capacityCpu := 0, assignedCpu := assignedCpu, assignedMem := assignedMem,
                capacityGpu := 0, assignedGpu := assignedGpu, capacityMem := "0Mi" }]) ∧
    (∀ err2 : String,
      getClusterResource r gpuKey cluster (some (.error err)) (.error err2)
        = [.FailReturn .InternalServerError, .FailReturn .InternalServerError]) ∧
    (getClusterResource r "nvidia.com/gpu" "member-1" (some (.error "connection refused"))
        (.ok (1, 2, 0))).length = 2 := by
  have h : ∀ assignedCpu assignedMem assignedGpu : Quantity,
      getClusterResource r gpuKey cluster (some (.error err))
          (.ok (assignedCpu, assignedMem, assignedGpu))
        = [.FailReturn .InternalServerError,
           .SuccessReturn
            { capacityCpu := 0, assignedCpu := assignedCpu, assignedMem := assignedMem,
              capacityGpu := 0, assignedGpu := assignedGpu,
              capacityMem :=
                toString (Int.tdiv (r.Str2int (r.QuantityString 0)) 1024) ++ "Mi" }] := by
    intro assignedCpu assignedMem assignedGpu
    simp only [getClusterResource, sumCapacity_eq, List.map_nil, List.sum_nil]
    rfl
  refine ⟨h, fun h0 assignedCpu assignedMem assignedGpu => ?_, fun err2 => rfl, rfl⟩
  rw [h, h0]
  rfl

/-! ## LDAP search filter: lemmas -/

theorem parenExcess_append (a b : String) :
    parenExcess (a ++ b) = parenExcess a + parenExcess b := by
  simp only [parenExcess, String.data_append, List.count_append, Nat.cast_add]
  ring

theorem parenExcess_of_noParen (s : String) (h : NoParen s) : parenExcess s = 0 := by
  simp [parenExcess, List.count_eq_zero_of_not_mem h.1, List.count_eq_zero_of_not_mem h.2]

theorem parenExcess_filterTerm (attr value : String) (ha : NoParen attr) (hv : NoParen value) :
    parenExcess (filterTerm attr value) = 0 := by
  have h1 : parenExcess "(" = 1 := by decide
  have h2 : parenExcess "=" = 0 := by decide
  have h3 : parenExcess ")" = -1 := by decide
  simp only [filterTerm, parenExcess_append, parenExcess_of_noParen _ ha,
    parenExcess_of_noParen _ hv, h1, h2, h3]
  norm_num

theorem parenScan_excess (cs : List Char) (depth final : Nat)
    (h : parenScan cs depth = some final) :
    (final : Int) = depth + ((cs.count '(' : Int) - (cs.count ')' : Int)) := by
  induction cs generalizing depth with
  | nil =>
    simp only [parenScan, Option.some.injEq] at h
    simp [h]
  | cons c cs ih =>
    by_cases ho : c = '('
    · subst ho
      have h1 : parenScan cs (depth + 1) = some final := by simpa [parenScan] using h
      have := ih _ h1
      have hne : ('(' == ')') = false := by decide
      simp only [List.count_cons, beq_self_eq_true, if_true, hne] at *
      push_cast at this ⊢
      omega
    · by_cases hc : c = ')'
      · subst hc
        have hne : (')' == '(') = false := by decide
        cases depth with
        | zero => simp [parenScan] at h
        | succ d =>
          have h1 : parenScan cs d = some final := by simpa [parenScan] using h
          have := ih _ h1
          simp only [List.count_cons, beq_self_eq_true, if_true, hne, Bool.false_eq_true,
            if_false]
          push_cast
          omega
      · have h1 : parenScan cs depth = some final := by simpa [parenScan, ho, hc] using h
        have := ih _ h1
        have e1 : (c == '(') = false := by simpa using ho
        have e2 : (c == ')') = false := by simpa using hc
        simp only [List.count_cons, e1, e2, Bool.false_eq_true, if_false]
        omega

theorem parenExcess_of_balanced (s : String) (h : Balanced s = true) : parenExcess s = 0 := by
  have h0 : parenScan s.data 0 = some 0 := by simpa [Balanced] using h
  have := parenScan_excess s.data 0 0 h0
  simp only [parenExcess]
  omega

theorem searchFilter_of_category (l : ldapProvider) (username : String)
    (hcat : l.LdapObjectCategory ≠ "") :
    searchFilter l username
      = (if l.LdapObjectClass != "" then
          filterTerm ldapAttributeObjectCategory l.LdapObjectCategory
            ++ filterTerm ldapAttributeObjectClass l.LdapObjectClass
         else filterTerm ldapAttributeObjectCategory l.LdapObjectCategory)
        ++ (filterTerm l.LdapLoginNameConfig username ++ ")") := by
  simp [searchFilter, hcat]

theorem searchFilter_of_no_category (l : ldapProvider) (username : String)
    (hcat : l.LdapObjectCategory = "") :
    searchFilter l username
      = (if l.LdapObjectClass != "" then
          "(" ++ "&" ++ filterTerm ldapAttributeObjectClass l.LdapObjectClass
         else "(")
        ++ (filterTerm l.LdapLoginNameConfig username ++ ")") := by
  by_cases hclass : l.LdapObjectClass = "" <;> simp [searchFilter, hcat, hclass]

/-- With an object category set and no parenthesis in the configured values or
the user name, the search filter closes one parenthesis more than it opens. -/
theorem searchFilter_unbalanced (l : ldapProvider) (username : String)
    (hcat : l.LdapObjectCategory ≠ "") (h1 : NoParen l.LdapObjectCategory)
    (h2 : NoParen l.LdapObjectClass) (h3 : NoParen l.LdapLoginNameConfig)
    (h4 : NoParen username) :
    parenExcess (searchFilter l username) = -1 ∧ Balanced (searchFilter l username) = false := by
  have hA : NoParen ldapAttributeObjectCategory := ⟨by decide, by decide⟩
  have hB : NoParen ldapAttributeObjectClass := ⟨by decide, by decide⟩
  have hclose : parenExcess ")" = -1 := by decide
  have hex : parenExcess (searchFilter l username) = -1 := by
    rw [searchFilter_of_category l username hcat]
    by_cases hclass : l.LdapObjectClass = ""
    · simp [hclass, parenExcess_append, parenExcess_filterTerm _ _ hA h1,
        parenExcess_filterTerm _ _ h3 h4, hclose]
    · simp [hclass, parenExcess_append, parenExcess_filterTerm _ _ hA h1,
        parenExcess_filterTerm _ _ hB h2, parenExcess_filterTerm _ _ h3 h4, hclose]
  refine ⟨hex, ?_⟩
  rw [Bool.eq_false_iff]
  intro hbal
  have := parenExcess_of_balanced _ hbal
  omega

/-! ## LDAP search filter: claims -/

/-- C12: with object category `c`, object class `person`, login attribute `uid`
and user `u`, none of which holds a parenthesis, the search filter built by
`Authenticate` is `(objectCategory=c)(objectClass=person)(uid=u))`: the filter
begun with `(&` is overwritten by the object-category term, so the result is
not parenthesis-balanced and is not `(&(objectCategory=c)(objectClass=person)(uid=u))`. -/
theorem searchFilter_category_drops_prefix :
    searchFilter ⟨"person", "uid", "c", "ldap.example.com", "389", "dc=example,dc=com",
        "cn=admin", "secret"⟩ "u"
      = "(objectCategory=c)(objectClass=person)(uid=u))" ∧
    Balanced "(objectCategory=c)(objectClass=person)(uid=u))" = false ∧
    Balanced "(&(objectCategory=c)(objectClass=person)(uid=u))" = true ∧
    searchFilter ⟨"person", "uid", "c", "ldap.example.com", "389", "dc=example,dc=com",
        "cn=admin", "secret"⟩ "u"
      ≠ "(&(objectCategory=c)(objectClass=person)(uid=u))" := by
  refine ⟨by decide, by decide, by decide, by decide⟩

end KubeCube
